import Mathlib

/-!
Verification of the batched polling / result-reconciliation pipeline of the
lighthouse repository (store SLA check and item availability check), as a
shallow embedding in Lean 4.

Modelling conventions, applied uniformly:

* A JavaScript field value is modelled by `JsField α`: `absent` stands for a
  missing key or the value `undefined`, `null` for the value `null`, and
  `val a` for an actual value.  JS truthiness tests (`if (x)`, `x || y`,
  `x ? a : b`) are modelled by the `truthy*` helpers: the empty string, `0`,
  `false`, `null` and `undefined` are falsy, everything else is truthy.
* Network calls (`axios`), CSV reads and the database bulk insert are
  side effects; their results are passed to the embedded functions as
  explicit arguments (`Except String …` for operations that can reject, an
  oracle function `Store → Item → AvailOutcome` for the per-unit probe).
  `Math.random()`-derived mock values are passed as explicit parameters.
* `new Date().toISOString()` timestamps are passed as an explicit `now`
  argument; the wall-clock `duration` string of the availability report and
  the float-formatted `successRate` string (both derived from real time /
  floating point, never consulted by any control flow) are omitted.
* Thrown exceptions caught by an enclosing `try { … } catch` are modelled by
  `Except String`: the `*E` function is the body of the `try`, the outer
  function applies the `catch` branch.
* `console.log` / `console.error` calls are side-effect only and are dropped.
-/

namespace Lighthouse

/-- A JavaScript field value: `absent` is a missing key or `undefined`,
`null` is the JS `null`, `val` an actual value. -/
inductive JsField (α : Type) where
  | absent : JsField α
  | null : JsField α
  | val : α → JsField α
deriving DecidableEq

/-- Whether the field is `undefined` / absent. -/
def JsField.isAbsent {α : Type} : JsField α → Bool
  | .absent => true
  | _ => false

/-- JS truthiness of a string-valued field: only a non-empty string is truthy. -/
def truthyS : JsField String → Bool
  | .val s => s ≠ ""
  | _ => false

/-- JS truthiness of a boolean-valued field. -/
def truthyB : JsField Bool → Bool
  | .val b => b
  | _ => false

/-- JS truthiness of a number-valued field: only a non-zero number is truthy. -/
def truthyN : JsField Nat → Bool
  | .val n => n ≠ 0
  | _ => false

/-- JS `a || b` on string-valued fields (`b` returned verbatim when `a` is falsy). -/
def orNullS (a b : JsField String) : JsField String :=
  if truthyS a then a else b

/-- JS `a || d` collapsing to a plain string default (`storeId || "N/A"` pattern). -/
def orDefS (a : JsField String) (d : String) : String :=
  match a with
  | .val s => if s = "" then d else s
  | _ => d

/-- JS `a || d` on number-valued fields collapsing to a default
(`error.response?.status || 500` pattern). -/
def orDefN (a : JsField Nat) (d : Nat) : Nat :=
  match a with
  | .val n => if n = 0 then d else n
  | _ => d

/-- JS `x !== undefined ? x : d` pattern (`slaString !== undefined` in
`extractSlaData`): only `undefined` is replaced by the default, `null` and
actual values pass through verbatim. -/
def ifDefS (a : JsField String) (d : String) : JsField String :=
  match a with
  | .absent => .val d
  | v => v

/-! ## Frontend severity classifiers (src/unnamed/part_004 and part_007) -/

/-- The rendered severity of an SLA label in the dashboard: either the bare
red `CloseCircleTwoTone` icon (the `!sla || sla === "N/A"` branch) or an antd
`Tag` with one of the colors `success` / `warning` / `error`. -/
inductive SlaTagView where
  | closeIcon (twoToneColor : String)
  | tag (color : String) (label : String)
deriving DecidableEq

/-- `parseInt(sla.replace(/\D/g, ""))`: strip every non-digit character and
parse the remaining digit string; an empty digit string gives `NaN`,
modelled as `none`. -/
def parseIntDigits (s : String) : Option Nat :=
  let digits := s.toList.filter Char.isDigit
  if digits.isEmpty then none
  else some (digits.foldl (fun n c => n * 10 + (c.toNat - 48)) 0)

/-- `getSlaTag` (frontend SLA timeline, src/unnamed/part_004 lines 174-187).
Note the `NaN` path: when the label contains no digit, both `minutes > 30`
and `minutes > 20` are false, so `color` keeps its initial value
`"success"`. -/
def getSlaTag (sla : Option String) : SlaTagView :=
  match sla with
  | none => .closeIcon "#ff4d4f"
  | some s =>
    if s = "" ∨ s = "N/A" then .closeIcon "#ff4d4f"
    else
      match parseIntDigits s with
      | none => .tag "success" s
      | some minutes =>
        if minutes > 30 then .tag "error" s
        else if minutes > 20 then .tag "warning" s
        else .tag "success" s

/-- The three-valued severity band the spec talks about, with the mapping the
spec assigns to the rendered views: the red close icon and the red tag are
the error band. -/
inductive SlaBand where
  | success
  | warning
  | error
deriving DecidableEq

/-- Band of a rendered SLA view: the bare red icon counts as the error band
(the spec's `classify(null) == error`). -/
def slaBandOf : SlaTagView → SlaBand
  | .closeIcon _ => .error
  | .tag c _ => if c = "error" then .error else if c = "warning" then .warning else .success

/-- `classify` of the spec for SLA labels: `getSlaTag` followed by reading off
the band of the rendered view. -/
def classifySla (sla : Option String) : SlaBand :=
  slaBandOf (getSlaTag sla)

/-- The rendered availability icon in the dashboard (src/unnamed/part_007):
green check circle or red close circle, with its twoTone color. -/
inductive AvailTagView where
  | checkIcon (twoToneColor : String)
  | closeIcon (twoToneColor : String)
deriving DecidableEq

/-- `getAvailabilityTag` (src/unnamed/part_007 lines 233-241): `true` renders
the green check icon; `false` renders the red close icon; the `else` branch
(`null` / anything else) renders the *same* red close icon. -/
def getAvailabilityTag (available : Option Bool) : AvailTagView :=
  match available with
  | some true => .checkIcon "#52c41a"
  | some false => .closeIcon "#ff4d4f"
  | none => .closeIcon "#ff4d4f"

/-! ## Store SLA check (src/backend/cron/storeSlaCheck.js) -/

/-- `storeDetails` block of the SLA API payload. -/
structure SlaStoreDetails where
  description : JsField String
  locality : JsField String
deriving DecidableEq

/-- The `data` object of the SLA API payload
(`{storeId, slaString, serviceability, storeDetails}`). -/
structure SlaPayloadData where
  storeId : JsField String
  slaString : JsField String
  serviceability : JsField String
  storeDetails : JsField SlaStoreDetails
deriving DecidableEq

/-- The record `extractSlaData` produces.  `storeId` and `name` are always
plain strings in the source (`|| "N/A"` and the `storeName` defaulting
chain); `slaString` and `serviceability` are only replaced when they are
`undefined`, so a `null` payload value passes through verbatim. -/
structure SlaData where
  storeId : String
  name : String
  slaString : JsField String
  serviceability : JsField String
deriving DecidableEq

/-- `extractSlaData(response)` (storeSlaCheck.js lines 52-111).  The argument
models `response?.data`: `absent` / `null` cover an absent body or absent
`data` key.  The source's `catch` branch is unreachable in this total
model (no JS exception can be raised by the field accesses). -/
def extractSlaData (data : JsField SlaPayloadData) : SlaData :=
  match data with
  | .val d =>
    let storeName :=
      match d.storeDetails with
      | .val sd =>
        let description := orDefS sd.description ""
        let locality := orDefS sd.locality ""
        if description ≠ "" ∧ locality ≠ "" then description ++ " - " ++ locality
        else if description ≠ "" then description
        else if locality ≠ "" then locality
        else "Instamart"
      | _ => "Instamart"
    { storeId := orDefS d.storeId "N/A"
      name := storeName
      slaString := ifDefS d.slaString "N/A"
      serviceability := ifDefS d.serviceability "N/A" }
  | _ =>
    { storeId := "N/A", name := "N/A", slaString := .val "N/A", serviceability := .val "N/A" }

/-- The inline `mockApiResponse` of `callSwiggyApi`: the two `Math.random()`
draws are passed in as `r1` (store id offset, `< 5000` in the source) and
`r2` (SLA minutes offset, `< 20`), the serviceability coin flip as a Bool. -/
def mockSlaApiResponse (r1 r2 : Nat) (serviceable : Bool) : JsField SlaPayloadData :=
  .val
    { storeId := .val (toString (760000 + r1 % 5000))
      slaString := .val (toString (10 + r2 % 20) ++ " Mins")
      serviceability := .val (if serviceable then "SERVICEABLE" else "NOT_SERVICEABLE")
      storeDetails := .val { description := .val "Instamart Store", locality := .val "Test Location" } }

/-- A location row read from `store_sla.csv`. -/
structure Location where
  name : String
  lat : String
  lng : String
deriving DecidableEq

/-- One per-location probe outcome, the object `callSwiggyApi` resolves with.
On success the `error` key is absent (`absent`); on failure it holds the
error message.  The debugging-only `rawData` key (absent on failure) is not
modelled. -/
structure SlaOutcome where
  location : Location
  status : Nat
  statusText : String
  error : JsField String
  slaData : SlaData
  timestamp : String
deriving DecidableEq

/-- Result of the single `axios` GET of `callSwiggyApi`: a resolved response
(status, statusText, parsed JSON body as the `response?.data` view used by
`extractSlaData`) or a rejection carrying `error.response?.status`,
`error.response?.statusText` and `error.message`. -/
inductive HttpSlaResult where
  | ok (status : Nat) (statusText : String) (body : JsField SlaPayloadData)
  | fail (status : JsField Nat) (statusText : JsField String) (message : String)
deriving DecidableEq

/-- `callSwiggyApi(location)` (storeSlaCheck.js lines 118-214).  On a resolved
call it extracts from the real body, and when that yields the double "N/A"
signature it substitutes the extraction of the mock payload; the outcome is
a success either way (no `error` key).  On a rejected call it returns a
failure outcome whose `slaData` is the extraction of the mock payload. -/
def callSwiggyApi (location : Location) (http : HttpSlaResult)
    (r1 r2 : Nat) (serviceable : Bool) (now : String) : SlaOutcome :=
  match http with
  | .ok status statusText body =>
    let real := extractSlaData body
    let slaData :=
      if real.storeId = "N/A" ∧ real.slaString = .val "N/A" then
        extractSlaData (mockSlaApiResponse r1 r2 serviceable)
      else real
    { location := location, status := status, statusText := statusText
      error := .absent, slaData := slaData, timestamp := now }
  | .fail st stx msg =>
    { location := location, status := orDefN st 500, statusText := orDefS stx "Error"
      error := .val msg
      slaData := extractSlaData (mockSlaApiResponse r1 r2 serviceable)
      timestamp := now }

/-- One step of the `apiResults.forEach` partition loop: push the outcome on
the error list when its `error` key is truthy, on the result list
otherwise. -/
def pushByError {α : Type} (isErr : α → Bool) (acc : List α × List α) (r : α) :
    List α × List α :=
  if isErr r then (acc.1, acc.2 ++ [r]) else (acc.1 ++ [r], acc.2)

/-- The whole partition loop, starting from the two empty arrays. -/
def partitionByError {α : Type} (isErr : α → Bool) (rs : List α) : List α × List α :=
  rs.foldl (pushByError isErr) ([], [])

/-- `if (result.error)` — truthiness of the outcome's `error` key. -/
def slaIsError (o : SlaOutcome) : Bool :=
  truthyS o.error

structure Coordinates where
  lat : String
  lng : String
deriving DecidableEq

structure SlaLocationMeta where
  name : String
  coordinates : Coordinates
deriving DecidableEq

/-- One row of `simplifiedResults` in `performStoreSlaCheck`. -/
structure SlaSimplifiedResult where
  locationMeta : SlaLocationMeta
  storeId : String
  storeName : String
  sla : JsField String
  serviceability : JsField String
  timestamp : String
deriving DecidableEq

/-- One row of `simplifiedErrors` in `performStoreSlaCheck`. -/
structure SlaSimplifiedError where
  locationMeta : SlaLocationMeta
  error : JsField String
  timestamp : String
deriving DecidableEq

/-- The `results` key of the report: raw outcomes when `returnFullData` is
set, the trimmed projection otherwise. -/
inductive SlaResultsPayload where
  | full (outcomes : List SlaOutcome)
  | simplified (rows : List SlaSimplifiedResult)
deriving DecidableEq

structure SlaSummary where
  total : Nat
  successful : Nat
  failed : Nat
deriving DecidableEq

structure SlaOptions where
  returnFullData : Bool
deriving DecidableEq

/-- The object `performStoreSlaCheck` returns.  On the catch path the
`summary`, `results` and `errors` keys are absent (`none`) and `error`
holds the thrown message. -/
structure SlaReport where
  success : Bool
  message : String
  timestamp : String
  summary : Option SlaSummary
  results : Option SlaResultsPayload
  errors : Option (List SlaSimplifiedError)
  error : Option String
deriving DecidableEq

/-- `performStoreSlaCheck(options)` (storeSlaCheck.js lines 221-297).  `load`
is the settled result of `getLocationData()` (a rejected CSV read throws);
`api` is the per-location probe oracle standing for the awaited
`Promise.all` of `callSwiggyApi` calls. -/
def performStoreSlaCheck (load : Except String (List Location))
    (api : Location → SlaOutcome) (opts : SlaOptions) (now : String) : SlaReport :=
  match load with
  | .error e =>
    { success := false, message := "Failed to perform SLA check", timestamp := now
      summary := none, results := none, errors := none, error := some e }
  | .ok locations =>
    let apiResults := locations.map api
    let pr := partitionByError slaIsError apiResults
    let results := pr.1
    let errors := pr.2
    let simplifiedResults : List SlaSimplifiedResult := results.map (fun r =>
      { locationMeta :=
          { name := r.location.name
            coordinates := { lat := r.location.lat, lng := r.location.lng } }
        storeId := r.slaData.storeId
        storeName := r.slaData.name
        sla := r.slaData.slaString
        serviceability := r.slaData.serviceability
        timestamp := r.timestamp })
    let simplifiedErrors : List SlaSimplifiedError := errors.map (fun e =>
      { locationMeta :=
          { name := e.location.name
            coordinates := { lat := e.location.lat, lng := e.location.lng } }
        error := e.error
        timestamp := e.timestamp })
    { success := true
      message := "Completed SLA check for " ++ toString locations.length ++ " locations"
      timestamp := now
      summary := some { total := locations.length, successful := results.length, failed := errors.length }
      results := some (if opts.returnFullData then .full results else .simplified simplifiedResults)
      errors := some simplifiedErrors
      error := none }

/-! ## Item availability check (src/backend/cron/itemAvailabilityCheck.js) -/

/-- `variation.inventory` block. -/
structure InventoryRaw where
  in_stock : JsField Bool
deriving DecidableEq

/-- `variation.sku_slot_info` block. -/
structure SkuSlotRaw where
  is_avail : JsField Bool
deriving DecidableEq

/-- `variation.price` block. -/
structure PriceRaw where
  offer_price : JsField Nat
  store_price : JsField Nat
deriving DecidableEq

/-- One entry of the payload's `item.variations` array. -/
structure VariationRaw where
  id : JsField String
  quantity : JsField Nat
  inventory : JsField InventoryRaw
  sku_slot_info : JsField SkuSlotRaw
  price : JsField PriceRaw
  max_allowed_quantity : JsField Nat
deriving DecidableEq

/-- One entry of the mapped `variationsInfo` list built by
`extractItemAvailabilityData`. -/
structure VariationInfo where
  id : JsField String
  quantity : JsField Nat
  inStock : Bool
  slotAvailable : Bool
  price : JsField Nat
  maxAllowed : JsField Nat
deriving DecidableEq

/-- `variation.inventory?.in_stock || false` — optional chain then truthiness. -/
def optChainB {β : Type} (o : JsField β) (f : β → JsField Bool) : Bool :=
  match o with
  | .val b => truthyB (f b)
  | _ => false

/-- `variation.price?.offer_price || variation.price?.store_price`. -/
def variationPrice (p : JsField PriceRaw) : JsField Nat :=
  match p with
  | .val pr => if truthyN pr.offer_price then pr.offer_price else pr.store_price
  | _ => .absent

/-- The per-variation mapping inside `extractItemAvailabilityData`. -/
def mapVariation (v : VariationRaw) : VariationInfo :=
  { id := v.id
    quantity := v.quantity
    inStock := optChainB v.inventory (fun i => i.in_stock)
    slotAvailable := optChainB v.sku_slot_info (fun s => s.is_avail)
    price := variationPrice v.price
    maxAllowed := v.max_allowed_quantity }

/-- The payload's `item` block. -/
structure ItemPayload where
  inStockAndSlotAvailable : JsField Bool
  display_name : JsField String
  product_name_without_brand : JsField String
  brand : JsField String
  category : JsField String
  super_category : JsField String
  variations : JsField (List VariationRaw)
deriving DecidableEq

/-- The payload's `storeDetails` block (availability variant). -/
structure AvailStoreDetails where
  id : JsField String
  locality : JsField String
  name : JsField String
deriving DecidableEq

/-- The `data` object of the availability API payload. -/
structure AvailPayloadData where
  item : JsField ItemPayload
  storeDetails : JsField AvailStoreDetails
deriving DecidableEq

/-- The record `extractItemAvailabilityData` produces.  Every field is a
`JsField` so that an absent key (JS `undefined`) is distinguishable from
`null` and from a value: the failure-path mock record in
`checkItemAvailability` sets only seven of these keys, leaving the rest
absent.  The extra `error` key exists only on the extraction catch path
(unreachable in this total model) and on no other record, so it is not part
of the record schema here. -/
structure AvailabilityData where
  itemId : JsField String
  itemInternalName : JsField String
  available : JsField Bool
  itemName : JsField String
  brand : JsField String
  category : JsField String
  storeId : JsField String
  storeLocality : JsField String
  storeDescription : JsField String
  variationsCount : JsField Nat
  variationsInfo : JsField (List VariationInfo)
  responseStatus : JsField String
deriving DecidableEq

/-- Optional chain producing a string field: `storeDetails?.id` etc.; an
absent / null object yields `undefined`. -/
def optChainS {β : Type} (o : JsField β) (f : β → JsField String) : JsField String :=
  match o with
  | .val b => f b
  | _ => .absent

/-- The all-null "NO_DATA" record `extractItemAvailabilityData` returns when
`response?.data?.item` is falsy. -/
def noDataAvailabilityData (itemId : String) (itemInternalName : JsField String) :
    AvailabilityData :=
  { itemId := .val itemId
    itemInternalName := itemInternalName
    available := .null
    itemName := .null
    brand := .null
    category := .null
    storeId := .null
    storeLocality := .null
    storeDescription := .null
    variationsCount := .val 0
    variationsInfo := .null
    responseStatus := .val "NO_DATA" }

/-- `extractItemAvailabilityData(response, itemId, itemInternalName)`
(itemAvailabilityCheck.js lines 88-180).  The first argument models
`response?.data` (the axios body's `data` key); the guard in the source is
`response?.data?.item`.  `available` is copied verbatim from
`item.inStockAndSlotAvailable` with no fallback, unlike every other field.
The `catch` branch of the source is unreachable in this total model. -/
def extractItemAvailabilityData (data : JsField AvailPayloadData)
    (itemId : String) (itemInternalName : JsField String) : AvailabilityData :=
  match data with
  | .val d =>
    match d.item with
    | .val item =>
      let variationsInfo : JsField (List VariationInfo) :=
        match item.variations with
        | .val vs => .val (vs.map mapVariation)
        | _ => .null
      { itemId := .val itemId
        itemInternalName := itemInternalName
        available := item.inStockAndSlotAvailable
        itemName := orNullS item.display_name (orNullS item.product_name_without_brand .null)
        brand := orNullS item.brand .null
        category := orNullS item.category (orNullS item.super_category .null)
        storeId := orNullS (optChainS d.storeDetails (fun sd => sd.id)) .null
        storeLocality := orNullS (optChainS d.storeDetails (fun sd => sd.locality)) .null
        storeDescription := orNullS (optChainS d.storeDetails (fun sd => sd.name)) .null
        variationsCount :=
          (match variationsInfo with
           | .val vs => .val vs.length
           | _ => .val 0)
        variationsInfo := variationsInfo
        responseStatus := .val "SUCCESS" }
    | _ => noDataAvailabilityData itemId itemInternalName
  | _ => noDataAvailabilityData itemId itemInternalName

/-- A store row produced by `getStoreServiceabilityData` (storeId from the
SLA probe, spot metadata and coordinates from the location row). -/
structure Store where
  storeId : String
  spotName : String
  spotArea : String
  spotCity : String
  coordinates : Coordinates
deriving DecidableEq

/-- An item to check: `{productId, itemInternalName}` as built from
`item_list.csv` or from the comma-separated `options.itemIds` string. -/
structure Item where
  productId : String
  itemInternalName : String
deriving DecidableEq

/-- One store×item probe outcome, the object `checkItemAvailability` resolves
with.  On success the `error` key is absent; on failure it holds
`error.message`.  The debugging-only `rawData` key is not modelled. -/
structure AvailOutcome where
  store : Store
  itemId : String
  itemInternalName : String
  status : Nat
  statusText : String
  error : JsField String
  availabilityData : AvailabilityData
  timestamp : String
deriving DecidableEq

/-- Result of the single `axios` GET of `checkItemAvailability`. -/
inductive HttpAvailResult where
  | ok (status : Nat) (statusText : String) (body : JsField AvailPayloadData)
  | fail (status : JsField Nat) (statusText : JsField String) (message : String)
deriving DecidableEq

/-- The failure-path `mockAvailabilityData` of `checkItemAvailability`
(lines 238-246): only seven keys are set, so `brand`, `category`,
`variationsCount`, `variationsInfo` and `responseStatus` are absent.  The
`Math.random() > 0.3` draw is the `mockAvailable` parameter. -/
def mockAvailabilityData (store : Store) (item : Item) (mockAvailable : Bool) :
    AvailabilityData :=
  { itemId := .val item.productId
    itemInternalName := .val item.itemInternalName
    available := .val mockAvailable
    itemName := .val ("Mock Item " ++ item.productId)
    brand := .absent
    category := .absent
    storeId := .val store.storeId
    storeLocality := .val store.spotArea
    storeDescription := .val ("Mock Store " ++ store.storeId)
    variationsCount := .absent
    variationsInfo := .absent
    responseStatus := .absent }

/-- `checkItemAvailability(store, item)` (itemAvailabilityCheck.js lines
188-259).  On a resolved call the outcome is a success (no `error` key)
whose record is the extraction of the response body; on a rejected call the
outcome carries `error.message` and the synthesized mock record. -/
def checkItemAvailability (store : Store) (item : Item) (http : HttpAvailResult)
    (mockAvailable : Bool) (now : String) : AvailOutcome :=
  match http with
  | .ok status statusText body =>
    { store := store
      itemId := item.productId
      itemInternalName := item.itemInternalName
      status := status
      statusText := statusText
      error := .absent
      availabilityData := extractItemAvailabilityData body item.productId (.val item.itemInternalName)
      timestamp := now }
  | .fail st stx msg =>
    { store := store
      itemId := item.productId
      itemInternalName := item.itemInternalName
      status := orDefN st 500
      statusText := orDefS stx "Error"
      error := .val msg
      availabilityData := mockAvailabilityData store item mockAvailable
      timestamp := now }

/-- `if (result.error)` — truthiness of the outcome's `error` key. -/
def availIsError (o : AvailOutcome) : Bool :=
  truthyS o.error

/-! ### The batch loop of `processStoresInBatches` (lines 268-307) -/

/-- The successive slices `stores.slice(i, i + batchSize)` of the
`for (let i = 0; i < stores.length; i += batchSize)` loop.  The source never
runs this with `batchSize = 0` (`options.batchSize || config.batchSize`
yields at least the default 50); the `batchSize = 0` value of this Lean
function is an artifact of totality and is never relied on. -/
def chunks {α : Type} (b : Nat) : List α → List (List α)
  | [] => []
  | x :: xs => ((x :: xs).take b) :: chunks b (xs.drop (b - 1))
termination_by l => l.length
decreasing_by simp [List.length_drop]; omega

/-- Number of iterations whose trailing `if (i + batchSize < stores.length)`
cooldown fires: at the iteration whose remaining suffix is `l`, the
condition `i + batchSize < stores.length` is `batchSize < l.length`. -/
def interChunkDelays {α : Type} (b : Nat) : List α → Nat
  | [] => 0
  | x :: xs => (if b < (x :: xs).length then 1 else 0) + interChunkDelays b (xs.drop (b - 1))
termination_by l => l.length
decreasing_by simp [List.length_drop]; omega

/-- The `batchPromises` of one chunk: the nested
`batch.forEach(store => items.forEach(item => push(check(store, item))))`
builds one probe per store×item pair of the chunk, stores outermost. -/
def batchOutcomes (items : List Item) (probe : Store → Item → AvailOutcome)
    (batch : List Store) : List AvailOutcome :=
  batch.flatMap (fun store => items.map (fun item => probe store item))

/-- `processStoresInBatches(stores, items, batchSize)`: chunk the *stores*,
await each chunk's probes, and partition every settled outcome into the
running `results` / `errors` arrays (the `batchResults.forEach` loop is
`pushByError`).  The probe oracle stands for the awaited `Promise.all`. -/
def processStoresInBatches (stores : List Store) (items : List Item)
    (probe : Store → Item → AvailOutcome) (batchSize : Nat) :
    List AvailOutcome × List AvailOutcome :=
  (chunks batchSize stores).foldl
    (fun acc batch => (batchOutcomes items probe batch).foldl (pushByError availIsError) acc)
    ([], [])

/-! ### `performItemAvailabilityCheck` (lines 314-433) -/

/-- The four fallback item ids of `config.defaultItems`. -/
def defaultItems : List String :=
  ["A8S21QP2A1", "RC72JAN6NK", "61WDNU5G4B", "D7RY5RSB1Y"]

/-- `getItemsToCheck()` (lines 27-37): a rejected `readItemListCsv()` is
caught and replaced by the `config.defaultItems` fallback objects — the
read failure does *not* propagate. -/
def getItemsToCheck (csvRead : Except String (List Item)) : List Item :=
  match csvRead with
  | .ok items => items
  | .error _ => defaultItems.map (fun itemId =>
      { itemInternalName := "item_" ++ itemId, productId := itemId })

/-- Character-level splitter for JS `String.prototype.split(",")`: splits on
every comma, keeping empty segments, and yields one (empty) segment for the
empty input — the same behavior as the JS call.  Defined structurally so
that concrete instances evaluate. -/
def splitCommaChars : List Char → List (List Char)
  | [] => [[]]
  | c :: cs =>
    let rest := splitCommaChars cs
    if c = ',' then [] :: rest
    else (c :: rest.headD []) :: rest.tail

/-- JS `s.split(",")`. -/
def splitComma (s : String) : List String :=
  (splitCommaChars s.toList).map (fun cs => String.mk cs)

/-- The runtime value found in `options.itemIds`: the comma-separated string
`performItemAvailabilityCheck` expects, or the array the
`/api/item-availability-check` endpoint actually passes. -/
inductive ItemIdsArg where
  | str (s : String)
  | arr (ids : List String)
deriving DecidableEq

/-- The options object of `performItemAvailabilityCheck`.  `batchSize` keeps
JS truthiness (`options.batchSize || config.batchSize`); the pass-through
bookkeeping keys (`source`, `requestTime`, `params`) are not modelled. -/
structure AvailOptions where
  itemIds : Option ItemIdsArg
  batchSize : JsField Nat
  testMode : Bool
  returnFullData : Bool
deriving DecidableEq

/-- The `options.itemIds` handling at the top of the `try` block (lines
320-330): a string is split on commas and trimmed; `.split` on an array
value raises a `TypeError` that the enclosing `catch` turns into the
failure report; an absent key falls back to `getItemsToCheck()`. -/
def parseItems (arg : Option ItemIdsArg) (csvRead : Except String (List Item)) :
    Except String (List Item) :=
  match arg with
  | some (.str s) =>
    .ok ((splitComma s).map (fun id =>
      { productId := id.trim, itemInternalName := "item_" ++ id.trim }))
  | some (.arr _) => .error "options.itemIds.split is not a function"
  | none => .ok (getItemsToCheck csvRead)

/-- One row of `simplifiedResults` (lines 355-368). -/
structure AvailSimplifiedResult where
  storeId : String
  itemId : String
  itemInternalName : String
  itemName : JsField String
  storeLocality : JsField String
  storeDescription : JsField String
  spotName : String
  spotArea : String
  spotCity : String
  coordinates : Coordinates
  available : JsField Bool
  timestamp : String
deriving DecidableEq

/-- One row of `simplifiedErrors` (lines 389-398). -/
structure AvailSimplifiedError where
  storeId : String
  itemId : String
  spotName : String
  spotArea : String
  spotCity : String
  coordinates : Coordinates
  error : JsField String
  timestamp : String
deriving DecidableEq

/-- The `results` key of the availability report. -/
inductive AvailResultsPayload where
  | full (outcomes : List AvailOutcome)
  | simplified (rows : List AvailSimplifiedResult)
deriving DecidableEq

/-- The `summary` block of the availability report; the float-formatted
`successRate` string (a pure function of `successful` and `totalChecks`,
never consulted by control flow) is omitted. -/
structure AvailSummary where
  totalStores : Nat
  totalItems : Nat
  totalChecks : Nat
  successful : Nat
  failed : Nat
deriving DecidableEq

/-- The object `performItemAvailabilityCheck` returns; on the catch path
`summary`, `results` and `errors` are absent and `error` holds the thrown
message.  The wall-clock `duration` string is omitted. -/
structure AvailReport where
  success : Bool
  message : String
  timestamp : String
  summary : Option AvailSummary
  results : Option AvailResultsPayload
  errors : Option (List AvailSimplifiedError)
  error : Option String
deriving DecidableEq

/-- The trimmed projection of a successful outcome (lines 355-368):
`storeId` is `result.availabilityData.storeId || result.store.storeId`. -/
def simplifyAvailResult (r : AvailOutcome) : AvailSimplifiedResult :=
  { storeId := orDefS r.availabilityData.storeId r.store.storeId
    itemId := r.itemId
    itemInternalName := r.itemInternalName
    itemName := r.availabilityData.itemName
    storeLocality := r.availabilityData.storeLocality
    storeDescription := r.availabilityData.storeDescription
    spotName := r.store.spotName
    spotArea := r.store.spotArea
    spotCity := r.store.spotCity
    coordinates := r.store.coordinates
    available := r.availabilityData.available
    timestamp := r.timestamp }

/-- The trimmed projection of a failed outcome (lines 389-398). -/
def simplifyAvailError (e : AvailOutcome) : AvailSimplifiedError :=
  { storeId := e.store.storeId
    itemId := e.itemId
    spotName := e.store.spotName
    spotArea := e.store.spotArea
    spotCity := e.store.spotCity
    coordinates := e.store.coordinates
    error := e.error
    timestamp := e.timestamp }

/-- The `try` body of `performItemAvailabilityCheck`.  `csvRead` is the
settled `readItemListCsv()` result, `storesLoad` the settled
`getStoreServiceabilityData()` result — that function catches any failure
and rethrows the fixed message modelled here.  The database save (lines
374-386) runs when `testMode` is falsy; its result and any exception it
throws are only logged, so the report is built the same way afterwards. -/
def performItemAvailabilityCheckE (opts : AvailOptions)
    (csvRead : Except String (List Item)) (storesLoad : Except String (List Store))
    (probe : Store → Item → AvailOutcome) (now : String) : Except String AvailReport :=
  match parseItems opts.itemIds csvRead with
  | .error e => .error e
  | .ok items =>
    match storesLoad with
    | .error _ => .error "Failed to fetch store serviceability data"
    | .ok stores =>
      if stores.length = 0 then .error "No serviceable stores found"
      else
        let batchSize := orDefN opts.batchSize 50
        let pr := processStoresInBatches stores items probe batchSize
        let results := pr.1
        let errors := pr.2
        let simplifiedResults := results.map simplifyAvailResult
        let simplifiedErrors := errors.map simplifyAvailError
        .ok
          { success := true
            message := "Completed item availability check for " ++ toString stores.length
              ++ " stores and " ++ toString items.length ++ " items"
            timestamp := now
            summary := some
              { totalStores := stores.length
                totalItems := items.length
                totalChecks := stores.length * items.length
                successful := results.length
                failed := errors.length }
            results := some (if opts.returnFullData then .full results else .simplified simplifiedResults)
            errors := some simplifiedErrors
            error := none }

/-- `performItemAvailabilityCheck(options)` with its enclosing `catch`.
`saveOutcome` is the settled database bulk-insert call; the source reads it
only to log, so the report never depends on it.  The returned Bool is
instrumentation recording whether the `saveItemAvailabilityResults` call
was reached: the save block runs exactly when the `try` body got past the
batch loop and `testMode` is false. -/
def performItemAvailabilityCheck (opts : AvailOptions)
    (csvRead : Except String (List Item)) (storesLoad : Except String (List Store))
    (probe : Store → Item → AvailOutcome) (saveOutcome : Except String Bool)
    (now : String) : AvailReport × Bool :=
  match performItemAvailabilityCheckE opts csvRead storesLoad probe now with
  | .ok report => (report, !opts.testMode)
  | .error e =>
    ({ success := false
       message := "Failed to perform item availability check"
       timestamp := now
       summary := none, results := none, errors := none
       error := some e }, false)

/-! ### The `/api/item-availability-check` endpoint (src/unnamed/part_002) -/

/-- The query parameters the endpoint reads. -/
structure CheckQuery where
  itemIds : Option String
  testMode : Option String
  full : Option String
deriving DecidableEq

/-- `itemIdsArray` of the endpoint: `if (itemIds)` (string truthiness) then
split on commas and trim each id. -/
def parseQueryItemIds (itemIds : Option String) : List String :=
  match itemIds with
  | some s => if s = "" then [] else (splitComma s).map (fun id => id.trim)
  | none => []

/-- The endpoint handler body (src/unnamed/part_002 lines 140-183): it calls
`performItemAvailabilityCheck` with `itemIds` set to the *array*
`itemIdsArray` whenever that array is non-empty, and formats the report
(the formatting keeps the keys modelled in `AvailReport`). -/
def itemAvailabilityCheckEndpoint (q : CheckQuery)
    (csvRead : Except String (List Item)) (storesLoad : Except String (List Store))
    (probe : Store → Item → AvailOutcome) (saveOutcome : Except String Bool)
    (now : String) : AvailReport :=
  let itemIdsArray := parseQueryItemIds q.itemIds
  (performItemAvailabilityCheck
    { itemIds := if itemIdsArray.length > 0 then some (.arr itemIdsArray) else none
      batchSize := .absent
      testMode := q.testMode = some "true"
      returnFullData := q.full = some "true" }
    csvRead storesLoad probe saveOutcome now).1

/-! ### The persisting `performStoreSlaCheck` variant (src/frontend/src/App.js
lines 110-205) — same pipeline as the cron variant but with the
`saveServiceabilityResults` block and location/slaData shapes from
`utils/swiggyApi.js` (whose shape is read off its uses in App.js and in
`getStoreServiceabilityData`). -/

/-- A location row as `utils/swiggyApi.js` exposes it (used via
`result.location.societyName` / `.area` / `.city` / `.lat` / `.lng`). -/
structure AppLocation where
  societyName : String
  area : String
  city : String
  lat : String
  lng : String
deriving DecidableEq

/-- The `slaData` of the `utils/swiggyApi.js` prober as App.js reads it
(`storeId`, `storeDescription`, `storeLocality`, `slaString`,
`serviceability`). -/
structure AppSlaData where
  storeId : JsField String
  storeDescription : JsField String
  storeLocality : JsField String
  slaString : JsField String
  serviceability : JsField String
deriving DecidableEq

/-- A per-location outcome of the `utils/swiggyApi.js` `callSwiggyApi`,
partitioned by the truthiness of its `error` key exactly as in the cron
variant. -/
structure AppSlaOutcome where
  location : AppLocation
  error : JsField String
  slaData : AppSlaData
  timestamp : String
deriving DecidableEq

/-- `if (result.error)` for the App.js variant. -/
def appSlaIsError (o : AppSlaOutcome) : Bool :=
  truthyS o.error

/-- One row of `simplifiedResults` in the App.js variant. -/
structure AppSlaSimplifiedResult where
  societyName : String
  area : String
  city : String
  coordinates : Coordinates
  storeId : JsField String
  storeDescription : JsField String
  storeLocality : JsField String
  sla : JsField String
  serviceability : JsField String
  timestamp : String
deriving DecidableEq

/-- One row of `simplifiedErrors` in the App.js variant. -/
structure AppSlaSimplifiedError where
  societyName : String
  area : String
  city : String
  coordinates : Coordinates
  error : JsField String
  timestamp : String
deriving DecidableEq

/-- The report of the App.js variant (summary shape as in the cron variant;
`results` modelled as the simplified rows plus the full-data flag, which is
all the persistence claims consult). -/
structure AppSlaReport where
  success : Bool
  message : String
  timestamp : String
  summary : Option SlaSummary
  simplifiedResults : Option (List AppSlaSimplifiedResult)
  errors : Option (List AppSlaSimplifiedError)
  error : Option String
deriving DecidableEq

/-- The `try` body of the App.js `performStoreSlaCheck`.  The
`saveServiceabilityResults` block (lines 155-167) runs when `testMode` is
falsy; its result feeds only `console.log`, and a thrown error is caught by
the inner `catch` and execution continues, so the report is built the same
way afterwards. -/
def appPerformStoreSlaCheckE (load : Except String (List AppLocation))
    (api : AppLocation → AppSlaOutcome) (now : String) : Except String AppSlaReport :=
  match load with
  | .error e => .error e
  | .ok locations =>
    let apiResults := locations.map api
    let pr := partitionByError appSlaIsError apiResults
    let results := pr.1
    let errors := pr.2
    let simplifiedResults : List AppSlaSimplifiedResult := results.map (fun r =>
      { societyName := r.location.societyName
        area := r.location.area
        city := r.location.city
        coordinates := { lat := r.location.lat, lng := r.location.lng }
        storeId := r.slaData.storeId
        storeDescription := r.slaData.storeDescription
        storeLocality := r.slaData.storeLocality
        sla := r.slaData.slaString
        serviceability := r.slaData.serviceability
        timestamp := r.timestamp })
    let simplifiedErrors : List AppSlaSimplifiedError := errors.map (fun e =>
      { societyName := e.location.societyName
        area := e.location.area
        city := e.location.city
        coordinates := { lat := e.location.lat, lng := e.location.lng }
        error := e.error
        timestamp := e.timestamp })
    .ok
      { success := true
        message := "Completed SLA check for " ++ toString locations.length ++ " locations"
        timestamp := now
        summary := some { total := locations.length, successful := results.length, failed := errors.length }
        simplifiedResults := some simplifiedResults
        errors := some simplifiedErrors
        error := none }

/-- The App.js `performStoreSlaCheck` with its enclosing `catch`.
`saveOutcome` is the settled `saveServiceabilityResults` bulk insert; the
report never depends on it.  The returned Bool records whether the save
call was reached (`testMode` falsy and the probing phase completed). -/
def appPerformStoreSlaCheck (load : Except String (List AppLocation))
    (api : AppLocation → AppSlaOutcome) (saveOutcome : Except String Bool)
    (testMode : Bool) (now : String) : AppSlaReport × Bool :=
  match appPerformStoreSlaCheckE load api now with
  | .ok report => (report, !testMode)
  | .error e =>
    ({ success := false
       message := "Failed to perform SLA check"
       timestamp := now
       summary := none, simplifiedResults := none, errors := none
       error := some e }, false)

/-! ## Record-shape predicates and concrete fixtures -/

/-- Claim C2's notion of a structurally complete availability record: no key
of the record schema is absent / `undefined`. -/
def availRecordComplete (d : AvailabilityData) : Bool :=
  !d.itemId.isAbsent && !d.itemInternalName.isAbsent && !d.available.isAbsent &&
  !d.itemName.isAbsent && !d.brand.isAbsent && !d.category.isAbsent &&
  !d.storeId.isAbsent && !d.storeLocality.isAbsent && !d.storeDescription.isAbsent &&
  !d.variationsCount.isAbsent && !d.variationsInfo.isAbsent && !d.responseStatus.isAbsent

/-- Every key of the record schema except `available` is present. -/
def availRecordCompleteButAvailable (d : AvailabilityData) : Bool :=
  !d.itemId.isAbsent && !d.itemInternalName.isAbsent &&
  !d.itemName.isAbsent && !d.brand.isAbsent && !d.category.isAbsent &&
  !d.storeId.isAbsent && !d.storeLocality.isAbsent && !d.storeDescription.isAbsent &&
  !d.variationsCount.isAbsent && !d.variationsInfo.isAbsent && !d.responseStatus.isAbsent

/-- The seven keys the failure-path mock record actually sets. -/
def availRecordCoreSet (d : AvailabilityData) : Bool :=
  !d.itemId.isAbsent && !d.itemInternalName.isAbsent && !d.available.isAbsent &&
  !d.itemName.isAbsent && !d.storeId.isAbsent && !d.storeLocality.isAbsent &&
  !d.storeDescription.isAbsent

/-- A concrete serviceable store, for witnesses and counterexamples. -/
def exampleStore : Store :=
  { storeId := "762611", spotName := "Green Acres", spotArea := "Indiranagar"
    spotCity := "Bangalore", coordinates := { lat := "12.97", lng := "77.64" } }

/-- A concrete item, for witnesses and counterexamples. -/
def exampleItemA : Item :=
  { productId := "A8S21QP2A1", itemInternalName := "item_A8S21QP2A1" }

/-- A second concrete item. -/
def exampleItemB : Item :=
  { productId := "RC72JAN6NK", itemInternalName := "item_RC72JAN6NK" }

/-- A probe oracle whose every call resolves with an unrecognized-shape body
(HTTP 200 with no usable `data.item`). -/
def exampleProbeOk : Store → Item → AvailOutcome :=
  fun st it => checkItemAvailability st it (.ok 200 "OK" .absent) true "t0"

/-- A probe oracle whose every call rejects with a timeout. -/
def exampleProbeFail : Store → Item → AvailOutcome :=
  fun st it => checkItemAvailability st it (.fail .absent .absent "timeout of 10000ms exceeded") true "t0"

/-- A concrete location row. -/
def exampleLocation : Location :=
  { name := "Green Acres, Indiranagar, Bangalore", lat := "12.97", lng := "77.64" }

/-! ## Lemmas about the batch loop -/

theorem chunks_cons {α : Type} (b : Nat) (hb : 0 < b) (x : α) (xs : List α) :
    chunks b (x :: xs) = (x :: xs).take b :: chunks b ((x :: xs).drop b) := by
  obtain ⟨k, rfl⟩ := Nat.exists_eq_succ_of_ne_zero hb.ne'
  simp [chunks, List.drop_succ_cons]

theorem chunks_flatten {α : Type} (b : Nat) (hb : 0 < b) :
    (l : List α) → (chunks b l).flatten = l
  | [] => by simp [chunks]
  | x :: xs => by
    rw [chunks_cons b hb, List.flatten_cons,
      chunks_flatten b hb ((x :: xs).drop b), List.take_append_drop]
termination_by l => l.length
decreasing_by simp [List.length_drop]; omega

theorem chunks_length {α : Type} (b : Nat) (hb : 0 < b) :
    (l : List α) → (chunks b l).length = (l.length + b - 1) / b
  | [] => by
    simp [chunks]
    exact (Nat.div_eq_of_lt (by omega)).symm
  | x :: xs => by
    rw [chunks_cons b hb, List.length_cons, chunks_length b hb ((x :: xs).drop b)]
    simp only [List.length_drop, List.length_cons]
    rcases Nat.lt_or_ge xs.length b with h | h
    · have h0 : xs.length + 1 - b = 0 := by omega
      rw [h0]
      have h1 : (0 + b - 1) / b = 0 := Nat.div_eq_of_lt (by omega)
      have h2 : (xs.length + 1 + b - 1) / b = 1 :=
        Nat.div_eq_of_lt_le (by omega) (by omega)
      omega
    · have h3 : xs.length + 1 + b - 1 = (xs.length + 1 - b + b - 1) + b := by omega
      rw [h3, Nat.add_div_right _ hb]
termination_by l => l.length
decreasing_by simp [List.length_drop]; omega

theorem chunks_mem {α : Type} (b : Nat) (hb : 0 < b) :
    (l : List α) → ∀ c ∈ chunks b l, c.length ≤ b ∧ c ≠ []
  | [] => by simp [chunks]
  | x :: xs => by
    rw [chunks_cons b hb]
    intro c hc
    rcases List.mem_cons.mp hc with rfl | hmem
    · refine ⟨by simp [List.length_take], ?_⟩
      obtain ⟨k, rfl⟩ := Nat.exists_eq_succ_of_ne_zero hb.ne'
      simp
    · exact chunks_mem b hb ((x :: xs).drop b) c hmem
termination_by l => l.length
decreasing_by simp [List.length_drop]; omega

theorem chunks_ne_nil {α : Type} (b : Nat) (l : List α) (hl : l ≠ []) :
    1 ≤ (chunks b l).length := by
  match l, hl with
  | x :: xs, _ => simp [chunks]

theorem interChunkDelays_cons {α : Type} (b : Nat) (hb : 0 < b) (x : α) (xs : List α) :
    interChunkDelays b (x :: xs) =
      (if b < (x :: xs).length then 1 else 0) + interChunkDelays b ((x :: xs).drop b) := by
  obtain ⟨k, rfl⟩ := Nat.exists_eq_succ_of_ne_zero hb.ne'
  simp [interChunkDelays, List.drop_succ_cons]

theorem interChunkDelays_eq {α : Type} (b : Nat) (hb : 0 < b) :
    (l : List α) → interChunkDelays b l = (chunks b l).length - 1
  | [] => by simp [interChunkDelays, chunks]
  | x :: xs => by
    rw [interChunkDelays_cons b hb, chunks_cons b hb, List.length_cons,
      interChunkDelays_eq b hb ((x :: xs).drop b)]
    by_cases h : b < (x :: xs).length
    · have hne : (x :: xs).drop b ≠ [] := by
        intro hnil
        have := List.drop_eq_nil_iff.mp hnil
        omega
      have h1 := chunks_ne_nil b ((x :: xs).drop b) hne
      rw [if_pos (show b < xs.length + 1 by simpa using h)]
      simp only [List.length_cons]
      omega
    · have h2 : (x :: xs).length ≤ b := Nat.le_of_not_lt h
      have hnil : (x :: xs).drop b = [] := List.drop_eq_nil_iff.mpr h2
      rw [if_neg (show ¬ b < xs.length + 1 by simpa using h), hnil]
      simp [chunks]
termination_by l => l.length
decreasing_by simp [List.length_drop]; omega

theorem foldl_pushByError {α : Type} (isErr : α → Bool) :
    (rs : List α) → ∀ (acc : List α × List α),
      rs.foldl (pushByError isErr) acc =
        (acc.1 ++ rs.filter (fun r => !(isErr r)), acc.2 ++ rs.filter isErr)
  | [], acc => by simp
  | r :: rs, acc => by
    rw [List.foldl_cons, foldl_pushByError isErr rs]
    by_cases h : isErr r <;> simp [pushByError, h, List.filter_cons]

theorem partitionByError_eq {α : Type} (isErr : α → Bool) (rs : List α) :
    partitionByError isErr rs = (rs.filter (fun r => !(isErr r)), rs.filter isErr) := by
  simp [partitionByError, foldl_pushByError]

theorem length_filter_pair {α : Type} (p : α → Bool) (l : List α) :
    (l.filter (fun r => !(p r))).length + (l.filter p).length = l.length := by
  induction l with
  | nil => simp
  | cons a l ih => by_cases h : p a <;> simp [List.filter_cons, h] <;> omega

theorem foldl_batches {α : Type} (p : α → Bool) :
    (bss : List (List α)) → ∀ (acc : List α × List α),
      bss.foldl (fun acc rs => rs.foldl (pushByError p) acc) acc =
        (acc.1 ++ bss.flatten.filter (fun r => !(p r)), acc.2 ++ bss.flatten.filter p)
  | [], acc => by simp
  | bs :: bss, acc => by
    rw [List.foldl_cons, foldl_pushByError p bs acc, foldl_batches p bss]
    simp [List.filter_append, List.append_assoc]

/-- The batch loop is the by-error partition of the concatenation of all the
chunks' outcome lists. -/
theorem processStoresInBatches_eq (stores : List Store) (items : List Item)
    (probe : Store → Item → AvailOutcome) (b : Nat) :
    processStoresInBatches stores items probe b =
      (((chunks b stores).flatMap (batchOutcomes items probe)).filter (fun o => !(availIsError o)),
       ((chunks b stores).flatMap (batchOutcomes items probe)).filter availIsError) := by
  unfold processStoresInBatches
  have hmap : (chunks b stores).foldl
      (fun acc batch => (batchOutcomes items probe batch).foldl (pushByError availIsError) acc)
      ([], []) =
      ((chunks b stores).map (batchOutcomes items probe)).foldl
        (fun acc rs => rs.foldl (pushByError availIsError) acc) ([], []) := by
    rw [List.foldl_map]
  rw [hmap, foldl_batches, List.flatMap_def]
  simp

theorem batchOutcomes_length (items : List Item) (probe : Store → Item → AvailOutcome)
    (batch : List Store) :
    (batchOutcomes items probe batch).length = batch.length * items.length := by
  induction batch with
  | nil => simp [batchOutcomes]
  | cons s batch ih =>
    simp only [batchOutcomes, List.flatMap_cons, List.length_append, List.length_map,
      List.length_cons] at ih ⊢
    rw [ih, Nat.add_mul, Nat.one_mul]
    omega

theorem sum_map_mul_lengths {α : Type} (L : List (List α)) (k : Nat) :
    (L.map (fun c => c.length * k)).sum = (L.map List.length).sum * k := by
  induction L with
  | nil => simp
  | cons c L ih => simp [ih, Nat.add_mul]

/-- Total number of settled outcomes across all chunks: one per store×item
pair. -/
theorem flatMap_batchOutcomes_length (stores : List Store) (items : List Item)
    (probe : Store → Item → AvailOutcome) (b : Nat) (hb : 0 < b) :
    ((chunks b stores).flatMap (batchOutcomes items probe)).length =
      stores.length * items.length := by
  rw [List.length_flatMap]
  have h1 : ((chunks b stores).map (fun c => (batchOutcomes items probe c).length)).sum =
      ((chunks b stores).map (fun c => c.length * items.length)).sum := by
    congr 1
    exact List.map_congr_left (fun c _ => batchOutcomes_length items probe c)
  have h2 : ((chunks b stores).map List.length).sum = stores.length := by
    have := List.length_flatten (chunks b stores)
    rw [chunks_flatten b hb stores] at this
    omega
  calc ((chunks b stores).map (List.length ∘ batchOutcomes items probe)).sum
      = ((chunks b stores).map (fun c => (batchOutcomes items probe c).length)).sum := rfl
    _ = ((chunks b stores).map (fun c => c.length * items.length)).sum := h1
    _ = ((chunks b stores).map List.length).sum * items.length := sum_map_mul_lengths _ _
    _ = stores.length * items.length := by rw [h2]

/-! ## Lemmas about record shapes and the pipeline drivers -/

theorem orNullS_not_undef (a b : JsField String) (hb : b.isAbsent = false) :
    (orNullS a b).isAbsent = false := by
  unfold orNullS
  split
  · next h => cases a <;> simp_all [truthyS, JsField.isAbsent]
  · exact hb

theorem ifDefS_not_undef (a : JsField String) (d : String) :
    (ifDefS a d).isAbsent = false := by
  cases a <;> simp [ifDefS, JsField.isAbsent]

/-- The extraction never leaves a key other than `available` (and the
caller-supplied `itemInternalName`) absent. -/
theorem extract_complete_but_available (body : JsField AvailPayloadData) (pid : String)
    (iin : JsField String) (hiin : iin.isAbsent = false) :
    availRecordCompleteButAvailable (extractItemAvailabilityData body pid iin) = true := by
  cases body with
  | absent =>
    simp [extractItemAvailabilityData, noDataAvailabilityData, availRecordCompleteButAvailable,
      JsField.isAbsent]
    exact hiin
  | null =>
    simp [extractItemAvailabilityData, noDataAvailabilityData, availRecordCompleteButAvailable,
      JsField.isAbsent]
    exact hiin
  | val pd =>
    cases hitem : pd.item with
    | absent =>
      simp [extractItemAvailabilityData, hitem, noDataAvailabilityData,
        availRecordCompleteButAvailable, JsField.isAbsent]
      exact hiin
    | null =>
      simp [extractItemAvailabilityData, hitem, noDataAvailabilityData,
        availRecordCompleteButAvailable, JsField.isAbsent]
      exact hiin
    | val ip =>
      simp only [extractItemAvailabilityData, hitem, availRecordCompleteButAvailable,
        Bool.and_eq_true, Bool.not_eq_true']
      refine ⟨⟨⟨⟨⟨⟨⟨⟨⟨⟨rfl, hiin⟩, ?_⟩, ?_⟩, ?_⟩, ?_⟩, ?_⟩, ?_⟩, ?_⟩, ?_⟩, rfl⟩
      · exact orNullS_not_undef _ _ (orNullS_not_undef _ _ rfl)
      · exact orNullS_not_undef _ _ rfl
      · exact orNullS_not_undef _ _ (orNullS_not_undef _ _ rfl)
      · exact orNullS_not_undef _ _ rfl
      · exact orNullS_not_undef _ _ rfl
      · exact orNullS_not_undef _ _ rfl
      · cases ip.variations <;> simp [JsField.isAbsent]
      · cases ip.variations <;> simp [JsField.isAbsent]

/-- `extractSlaData` always returns all four keys present (`storeId` and
`name` by type, `slaString` and `serviceability` because only `undefined`
payload values are defaulted). -/
theorem extractSlaData_complete (body : JsField SlaPayloadData) :
    (extractSlaData body).slaString.isAbsent = false ∧
      (extractSlaData body).serviceability.isAbsent = false := by
  cases body with
  | absent => simp [extractSlaData, JsField.isAbsent]
  | null => simp [extractSlaData, JsField.isAbsent]
  | val d => exact ⟨ifDefS_not_undef _ _, ifDefS_not_undef _ _⟩

/-- Whenever the availability `try` body completes, the report it builds has
`success = true`. -/
theorem performItemAvailabilityCheckE_success (opts : AvailOptions)
    (csv : Except String (List Item)) (sl : Except String (List Store))
    (probe : Store → Item → AvailOutcome) (now : String) (r : AvailReport)
    (h : performItemAvailabilityCheckE opts csv sl probe now = .ok r) :
    r.success = true := by
  unfold performItemAvailabilityCheckE at h
  split at h
  · exact Except.noConfusion h
  · split at h
    · exact Except.noConfusion h
    · split at h
      · exact Except.noConfusion h
      · cases h
        rfl

/-- Whenever the App.js SLA `try` body completes, the report it builds has
`success = true`. -/
theorem appPerformStoreSlaCheckE_success (load : Except String (List AppLocation))
    (api : AppLocation → AppSlaOutcome) (now : String) (r : AppSlaReport)
    (h : appPerformStoreSlaCheckE load api now = .ok r) : r.success = true := by
  unfold appPerformStoreSlaCheckE at h
  split at h
  · exact Except.noConfusion h
  · cases h
    rfl

/-- With an empty item list every chunk contributes no probes at all. -/
theorem processStoresInBatches_no_items (stores : List Store)
    (probe : Store → Item → AvailOutcome) (b : Nat) :
    processStoresInBatches stores [] probe b = ([], []) := by
  rw [processStoresInBatches_eq]
  simp [batchOutcomes]

/-! ## Claim theorems -/

/-- C4: for every store list and positive batchSize, the coordinator's loop
produces ceil(n/batchSize) consecutive slices of at most batchSize elements
whose concatenation is the original list in order (chunks are processed
strictly in list order, each fully awaited before the next — the
deterministic fold preserves exactly this order; intra-chunk concurrency
has no observable effect in the model), and the trailing cooldown fires
once per iteration except the last: chunks − 1 delays in total; in
particular 200 elements with batchSize 50 give exactly 4 chunks. -/
theorem claim4_chunking (stores : List Store) (b : Nat) (hb : 0 < b) :
    (chunks b stores).length = (stores.length + b - 1) / b ∧
    (∀ c ∈ chunks b stores, c.length ≤ b ∧ c ≠ []) ∧
    (chunks b stores).flatten = stores ∧
    interChunkDelays b stores = (chunks b stores).length - 1 ∧
    (stores.length = 200 → b = 50 → (chunks b stores).length = 4) := by
  refine ⟨chunks_length b hb stores, chunks_mem b hb stores, chunks_flatten b hb stores,
    interChunkDelays_eq b hb stores, ?_⟩
  intro h200 h50
  rw [chunks_length b hb stores, h200, h50]

/-- Witness for C4 at a concrete input: 200 stores, batchSize 50, exactly
4 chunks. -/
theorem claim4_chunking_witness :
    0 < 50 ∧ (chunks 50 (List.replicate 200 exampleStore)).length = 4 :=
  ⟨by decide,
    (claim4_chunking (List.replicate 200 exampleStore) 50 (by decide)).2.2.2.2
      (by rw [List.length_replicate]) rfl⟩

/-- C5 counterexample: with batchSize 1 the single chunk `[exampleStore]`
yields 2 store×item probe outcomes (the cross product with the two-item
subset is formed inside the chunk), exceeding batchSize — refuting "each
chunk contains at most batchSize store×item units". -/
theorem claim5_cross_product_counterexample :
    chunks 1 [exampleStore] = [[exampleStore]] ∧
    (batchOutcomes [exampleItemA, exampleItemB] exampleProbeOk [exampleStore]).length = 2 ∧
    ¬ ((batchOutcomes [exampleItemA, exampleItemB] exampleProbeOk [exampleStore]).length ≤ 1) := by
  refine ⟨by simp [chunks], by decide, by decide⟩

/-- C5 amended: the work covered over the whole run is the full cross
product stores × item subset, but batching partitions the *stores*: the
cross product with the items is formed inside each chunk, so a chunk
yields exactly (its store count) × |items| units — up to
batchSize × |items|, not batchSize. -/
theorem claim5_cross_product_amended (stores : List Store) (items : List Item)
    (probe : Store → Item → AvailOutcome) (b : Nat) (hb : 0 < b) :
    ((chunks b stores).flatMap (batchOutcomes items probe)).length =
      stores.length * items.length ∧
    ∀ c ∈ chunks b stores,
      (batchOutcomes items probe c).length = c.length * items.length ∧ c.length ≤ b := by
  refine ⟨flatMap_batchOutcomes_length stores items probe b hb, ?_⟩
  intro c hc
  exact ⟨batchOutcomes_length items probe c, (chunks_mem b hb stores c hc).1⟩

/-- Witness for C5 amended at a concrete input. -/
theorem claim5_cross_product_amended_witness :
    0 < 2 ∧
      ((chunks 2 [exampleStore]).flatMap
          (batchOutcomes [exampleItemA, exampleItemB] exampleProbeOk)).length =
        [exampleStore].length * [exampleItemA, exampleItemB].length :=
  ⟨by decide,
    (claim5_cross_product_amended [exampleStore] [exampleItemA, exampleItemB]
      exampleProbeOk 2 (by decide)).1⟩

/-- C6 counterexample: `"Pending"` is a non-null label with no digits, so it
is unparsable (`parseInt` gives `NaN`), yet the classifier yields the
success band, not the error band the claim requires. -/
theorem claim6_sla_classifier_counterexample :
    parseIntDigits "Pending" = none ∧
    classifySla (some "Pending") = SlaBand.success ∧
    SlaBand.success ≠ SlaBand.error := by
  refine ⟨by decide, by decide, by decide⟩

/-- C6 amended: the classifier is pure and maps null, the empty label and
`"N/A"` to the error band, and labels whose digit characters parse to `n`
to error when n > 30, warning when 20 < n ≤ 30, success when n ≤ 20 —
including the quoted instances — but a non-empty label other than `"N/A"`
with no digit characters parses to NaN and falls through to the success
band, not error. -/
theorem claim6_sla_classifier_amended :
    classifySla none = SlaBand.error ∧
    classifySla (some "") = SlaBand.error ∧
    classifySla (some "N/A") = SlaBand.error ∧
    classifySla (some "15 Mins") = SlaBand.success ∧
    classifySla (some "25 Mins") = SlaBand.warning ∧
    classifySla (some "45 Mins") = SlaBand.error ∧
    (∀ s : String, s ≠ "" → s ≠ "N/A" →
      (∀ n, parseIntDigits s = some n →
        classifySla (some s) =
          (if n > 30 then SlaBand.error
           else if n > 20 then SlaBand.warning
           else SlaBand.success)) ∧
      (parseIntDigits s = none → classifySla (some s) = SlaBand.success)) := by
  refine ⟨by decide, by decide, by decide, by decide, by decide, by decide, ?_⟩
  intro s hne hna
  constructor
  · intro n hn
    simp only [classifySla, getSlaTag, hne, hna, hn, slaBandOf]
    split_ifs <;> simp_all [slaBandOf]
  · intro hn
    simp [classifySla, getSlaTag, hne, hna, hn, slaBandOf]

/-- Witness for C6 amended: the general band rule applied at the parsed
label "32 Mins". -/
theorem claim6_sla_classifier_amended_witness :
    parseIntDigits "32 Mins" = some 32 ∧ classifySla (some "32 Mins") = SlaBand.error := by
  refine ⟨by decide, ?_⟩
  have h := (claim6_sla_classifier_amended.2.2.2.2.2.2 "32 Mins"
    (by decide) (by decide)).1 32 (by decide)
  simpa using h

/-- C7 counterexample: the dashboard renders the null tri-state with the
very same red close icon as `false` — there is no distinct unknown band. -/
theorem claim7_availability_classifier_counterexample :
    getAvailabilityTag none = getAvailabilityTag (some false) := by decide

/-- C7 amended: `true` maps to the green check icon and `false` to the red
close icon, but `null` maps to that same red close icon — the unknown case
is not distinguished from the unavailable case. -/
theorem claim7_availability_classifier_amended :
    getAvailabilityTag (some true) = AvailTagView.checkIcon "#52c41a" ∧
    getAvailabilityTag (some false) = AvailTagView.closeIcon "#ff4d4f" ∧
    getAvailabilityTag none = AvailTagView.closeIcon "#ff4d4f" := by
  refine ⟨by decide, by decide, by decide⟩

/-- C1: when the unit-list load succeeds, every unit yields exactly one
outcome and the partition is exhaustive and exclusive: the SLA report's
summary counts satisfy successful + failed = |locations| with
total = |locations|; the availability batch loop's two lists are the
complementary by-error filters of the per-unit outcome sequence (so each
outcome lands in exactly one list) and their lengths sum to
|stores| × |items| for *every* probe oracle — in particular per-unit
failures never shorten the processed outcome sequence of later units or
chunks. -/
theorem claim1_outcome_accounting :
    (∀ (locations : List Location) (api : Location → SlaOutcome)
        (opts : SlaOptions) (now : String),
      ∃ s f : Nat,
        (performStoreSlaCheck (.ok locations) api opts now).summary =
          some { total := locations.length, successful := s, failed := f } ∧
        s + f = locations.length) ∧
    (∀ (stores : List Store) (items : List Item)
        (probe : Store → Item → AvailOutcome) (b : Nat),
      (processStoresInBatches stores items probe b).1 =
        ((chunks b stores).flatMap (batchOutcomes items probe)).filter
          (fun o => !(availIsError o)) ∧
      (processStoresInBatches stores items probe b).2 =
        ((chunks b stores).flatMap (batchOutcomes items probe)).filter availIsError) ∧
    (∀ (stores : List Store) (items : List Item)
        (probe : Store → Item → AvailOutcome) (b : Nat),
      0 < b →
        (processStoresInBatches stores items probe b).1.length +
          (processStoresInBatches stores items probe b).2.length =
          stores.length * items.length) := by
  refine ⟨?_, ?_, ?_⟩
  · intro locations api opts now
    refine ⟨(partitionByError slaIsError (locations.map api)).1.length,
      (partitionByError slaIsError (locations.map api)).2.length, rfl, ?_⟩
    rw [partitionByError_eq]
    have h := length_filter_pair slaIsError (locations.map api)
    simpa using h
  · intro stores items probe b
    rw [processStoresInBatches_eq]
    exact ⟨rfl, rfl⟩
  · intro stores items probe b hb
    rw [processStoresInBatches_eq]
    exact (length_filter_pair availIsError
      ((chunks b stores).flatMap (batchOutcomes items probe))).trans
      (flatMap_batchOutcomes_length stores items probe b hb)

/-- Witness for C1 at a concrete input: one store, two items, an
all-rejecting probe oracle, batchSize 2. -/
theorem claim1_outcome_accounting_witness :
    0 < 2 ∧
      (processStoresInBatches [exampleStore] [exampleItemA, exampleItemB] exampleProbeFail 2).1.length +
        (processStoresInBatches [exampleStore] [exampleItemA, exampleItemB] exampleProbeFail 2).2.length =
        [exampleStore].length * [exampleItemA, exampleItemB].length :=
  ⟨by decide,
    claim1_outcome_accounting.2.2 [exampleStore] [exampleItemA, exampleItemB]
      exampleProbeFail 2 (by decide)⟩

/-- C2 counterexample: a transport-error probe (a timeout) produces the
synthesized fallback record, but that record sets only seven keys —
`brand`, `category`, `variationsCount`, `variationsInfo` and
`responseStatus` are absent — so it is not structurally complete. -/
theorem claim2_complete_record_counterexample :
    availRecordComplete
        ((checkItemAvailability exampleStore exampleItemA
          (.fail .absent .absent "timeout of 10000ms exceeded") true "t0").availabilityData) =
      false := by
  decide

/-- C2 amended: every probe outcome still carries a record, but its shape
depends on the path: the SLA extraction always yields all four keys
present; an availability *success* outcome's record has every schema key
present except `available`, which is copied verbatim from the payload's
`inStockAndSlotAvailable` (hence absent exactly when the payload item
omits that flag); an availability *failure* outcome's synthesized fallback
sets only the seven core keys (itemId, itemInternalName, available,
itemName, storeId, storeLocality, storeDescription) and leaves `brand`,
`category`, `variationsCount`, `variationsInfo` and `responseStatus`
absent.  Unknown values on the non-failure paths use the null / "N/A"
sentinels. -/
theorem claim2_record_shape_amended :
    (∀ (st : Store) (it : Item) (status : Nat) (stext : String)
        (body : JsField AvailPayloadData) (mock : Bool) (now : String),
      availRecordCompleteButAvailable
          ((checkItemAvailability st it (.ok status stext body) mock now).availabilityData) =
        true) ∧
    (∀ (st : Store) (it : Item) (status : Nat) (stext : String)
        (ip : ItemPayload) (sd : JsField AvailStoreDetails) (mock : Bool) (now : String),
      ((checkItemAvailability st it
          (.ok status stext (.val { item := .val ip, storeDetails := sd }))
          mock now).availabilityData).available = ip.inStockAndSlotAvailable) ∧
    (∀ (st : Store) (it : Item) (hst : JsField Nat) (hstx : JsField String)
        (msg : String) (mock : Bool) (now : String),
      let d := (checkItemAvailability st it (.fail hst hstx msg) mock now).availabilityData
      availRecordCoreSet d = true ∧
      d.brand = .absent ∧ d.category = .absent ∧ d.variationsCount = .absent ∧
      d.variationsInfo = .absent ∧ d.responseStatus = .absent) ∧
    (∀ (body : JsField SlaPayloadData),
      (extractSlaData body).slaString.isAbsent = false ∧
        (extractSlaData body).serviceability.isAbsent = false) := by
  refine ⟨?_, ?_, ?_, extractSlaData_complete⟩
  · intro st it status stext body mock now
    exact extract_complete_but_available body it.productId (.val it.itemInternalName) rfl
  · intro st it status stext ip sd mock now
    rfl
  · intro st it hst hstx msg mock now
    refine ⟨?_, rfl, rfl, rfl, rfl, rfl⟩
    simp [checkItemAvailability, mockAvailabilityData, availRecordCoreSet, JsField.isAbsent]

/-- C3 counterexample: with a successfully loaded but empty store list the
availability pipeline does not return a successful zero-count report — it
throws "No serviceable stores found" and reports success = false. -/
theorem claim3_empty_units_counterexample :
    (performItemAvailabilityCheck
        { itemIds := none, batchSize := .absent, testMode := false, returnFullData := false }
        (.ok [exampleItemA]) (.ok []) exampleProbeOk (.ok true) "t0").1.success = false ∧
    (performItemAvailabilityCheck
        { itemIds := none, batchSize := .absent, testMode := false, returnFullData := false }
        (.ok [exampleItemA]) (.ok []) exampleProbeOk (.ok true) "t0").1.error =
      some "No serviceable stores found" := by
  refine ⟨rfl, rfl⟩

/-- C3 amended: the SLA check on an empty location list does return an
immediately-successful report with all counts zero and empty lists, and so
does the availability check when the item list is empty but stores exist;
but the availability check treats an empty *store* list as a hard failure:
it throws "No serviceable stores found" and reports success = false. -/
theorem claim3_empty_units_amended :
    (∀ (api : Location → SlaOutcome) (opts : SlaOptions) (now : String),
      (performStoreSlaCheck (.ok []) api opts now).success = true ∧
      (performStoreSlaCheck (.ok []) api opts now).summary =
        some { total := 0, successful := 0, failed := 0 } ∧
      (performStoreSlaCheck (.ok []) api opts now).errors = some [] ∧
      (performStoreSlaCheck (.ok []) api opts now).results =
        some (if opts.returnFullData then .full [] else .simplified [])) ∧
    (∀ (opts : AvailOptions) (csv : Except String (List Item))
        (probe : Store → Item → AvailOutcome) (save : Except String Bool) (now : String),
      (performItemAvailabilityCheck opts csv (.ok []) probe save now).1.success = false) ∧
    (∀ (st : Store) (sts : List Store) (probe : Store → Item → AvailOutcome)
        (save : Except String Bool) (now : String) (tm rfd : Bool),
      let r := (performItemAvailabilityCheck
        { itemIds := none, batchSize := .absent, testMode := tm, returnFullData := rfd }
        (.ok []) (.ok (st :: sts)) probe save now).1
      r.success = true ∧
      r.summary = some
        { totalStores := sts.length + 1, totalItems := 0, totalChecks := 0
          successful := 0, failed := 0 } ∧
      r.errors = some [] ∧
      r.results = some (if rfd then .full [] else .simplified [])) := by
  refine ⟨?_, ?_, ?_⟩
  · intro api opts now
    refine ⟨rfl, rfl, rfl, rfl⟩
  · intro opts csv probe save now
    rcases hpi : parseItems opts.itemIds csv with e | items
    · simp [performItemAvailabilityCheck, performItemAvailabilityCheckE, hpi]
    · simp [performItemAvailabilityCheck, performItemAvailabilityCheckE, hpi]
  · intro st sts probe save now tm rfd
    simp only [performItemAvailabilityCheck, performItemAvailabilityCheckE, parseItems,
      getItemsToCheck, processStoresInBatches_no_items]
    simp [List.length_cons, processStoresInBatches_no_items]

/-- C8: the final report is completely independent of the settled outcome of
the storage bulk insert (an error result or a thrown error is absorbed —
the success flag, and indeed every report field, is the same whether
persistence succeeded or failed, reflecting only the probing phase), and
the save call is reached exactly when the probing phase completed with
`testMode` false: the instrumentation flag equals
`!testMode && report.success`, so `testMode = true` never persists.  Both
for the availability pipeline and for the persisting App.js SLA
pipeline. -/
theorem claim8_persistence_absorbed :
    (∀ (opts : AvailOptions) (csv : Except String (List Item))
        (sl : Except String (List Store)) (probe : Store → Item → AvailOutcome)
        (s1 s2 : Except String Bool) (now : String),
      performItemAvailabilityCheck opts csv sl probe s1 now =
        performItemAvailabilityCheck opts csv sl probe s2 now) ∧
    (∀ (opts : AvailOptions) (csv : Except String (List Item))
        (sl : Except String (List Store)) (probe : Store → Item → AvailOutcome)
        (save : Except String Bool) (now : String),
      (performItemAvailabilityCheck opts csv sl probe save now).2 =
        (!opts.testMode && (performItemAvailabilityCheck opts csv sl probe save now).1.success)) ∧
    (∀ (load : Except String (List AppLocation)) (api : AppLocation → AppSlaOutcome)
        (s1 s2 : Except String Bool) (tm : Bool) (now : String),
      appPerformStoreSlaCheck load api s1 tm now =
        appPerformStoreSlaCheck load api s2 tm now) ∧
    (∀ (load : Except String (List AppLocation)) (api : AppLocation → AppSlaOutcome)
        (save : Except String Bool) (tm : Bool) (now : String),
      (appPerformStoreSlaCheck load api save tm now).2 =
        (!tm && (appPerformStoreSlaCheck load api save tm now).1.success)) := by
  refine ⟨fun _ _ _ _ _ _ _ => rfl, ?_, fun _ _ _ _ _ _ => rfl, ?_⟩
  · intro opts csv sl probe save now
    rcases hE : performItemAvailabilityCheckE opts csv sl probe now with e | r
    · simp [performItemAvailabilityCheck, hE]
    · have hs := performItemAvailabilityCheckE_success opts csv sl probe now r hE
      simp [performItemAvailabilityCheck, hE, hs]
  · intro load api save tm now
    rcases hE : appPerformStoreSlaCheckE load api now with e | r
    · simp [appPerformStoreSlaCheck, hE]
    · have hs := appPerformStoreSlaCheckE_success load api now r hE
      simp [appPerformStoreSlaCheck, hE, hs]

/-- C9 counterexample: a failing item-list CSV read (here "ENOENT") does not
abort the invocation — the availability check falls back to the default
item ids and completes with success = true. -/
theorem claim9_load_failure_counterexample :
    (performItemAvailabilityCheck
        { itemIds := none, batchSize := .absent, testMode := false, returnFullData := false }
        (.error "ENOENT: no such file item_list.csv") (.ok [exampleStore])
        exampleProbeOk (.ok true) "t0").1.success = true := by
  simp [performItemAvailabilityCheck, performItemAvailabilityCheckE, parseItems,
    getItemsToCheck]

/-- C9 amended: a *location-list* load failure is fatal — both pipelines
report success = false (the SLA report carries the thrown message) — but an
*item-list* load failure is not: `getItemsToCheck` absorbs it and
substitutes the four built-in default item ids, and the invocation
completes with success = true and totalItems = 4. -/
theorem claim9_load_failure_amended :
    (∀ (e : String) (api : Location → SlaOutcome) (opts : SlaOptions) (now : String),
      (performStoreSlaCheck (.error e) api opts now).success = false ∧
      (performStoreSlaCheck (.error e) api opts now).error = some e) ∧
    (∀ (opts : AvailOptions) (csv : Except String (List Item)) (e : String)
        (probe : Store → Item → AvailOutcome) (save : Except String Bool) (now : String),
      (performItemAvailabilityCheck opts csv (.error e) probe save now).1.success = false) ∧
    (∀ (e : String) (st : Store) (probe : Store → Item → AvailOutcome)
        (save : Except String Bool) (now : String) (tm rfd : Bool),
      (performItemAvailabilityCheck
          { itemIds := none, batchSize := .absent, testMode := tm, returnFullData := rfd }
          (.error e) (.ok [st]) probe save now).1.success = true ∧
      ∃ s f, (performItemAvailabilityCheck
          { itemIds := none, batchSize := .absent, testMode := tm, returnFullData := rfd }
          (.error e) (.ok [st]) probe save now).1.summary =
        some { totalStores := 1, totalItems := 4, totalChecks := 4
               successful := s, failed := f }) := by
  refine ⟨fun e api opts now => ⟨rfl, rfl⟩, ?_, ?_⟩
  · intro opts csv e probe save now
    rcases hpi : parseItems opts.itemIds csv with pe | items
    · simp [performItemAvailabilityCheck, performItemAvailabilityCheckE, hpi]
    · simp [performItemAvailabilityCheck, performItemAvailabilityCheckE, hpi]
  · intro e st probe save now tm rfd
    constructor
    · simp [performItemAvailabilityCheck, performItemAvailabilityCheckE, parseItems,
        getItemsToCheck]
    · refine ⟨(processStoresInBatches [st]
          (getItemsToCheck (.error e)) probe 50).1.length,
        (processStoresInBatches [st]
          (getItemsToCheck (.error e)) probe 50).2.length, ?_⟩
      simp [performItemAvailabilityCheck, performItemAvailabilityCheckE, parseItems,
        getItemsToCheck, defaultItems, orDefN]

/-- C10: passing `options.itemIds` as an array (exactly what the
`/api/item-availability-check` endpoint does whenever the query's comma
list is non-empty) makes the `.split(",")` step throw a TypeError that the
invocation boundary catches: the whole invocation returns success = false
with no summary, the save is never reached, and the report is identical for
any probe oracle, any store load and any csv read — no probe is
executed. -/
theorem claim10_array_item_ids :
    (∀ (ids : List String) (bs : JsField Nat) (tm rfd : Bool)
        (csv : Except String (List Item)) (sl : Except String (List Store))
        (probe : Store → Item → AvailOutcome) (save : Except String Bool) (now : String),
      (performItemAvailabilityCheck
          { itemIds := some (.arr ids), batchSize := bs, testMode := tm, returnFullData := rfd }
          csv sl probe save now).1.success = false ∧
      (performItemAvailabilityCheck
          { itemIds := some (.arr ids), batchSize := bs, testMode := tm, returnFullData := rfd }
          csv sl probe save now).1.summary = none ∧
      (performItemAvailabilityCheck
          { itemIds := some (.arr ids), batchSize := bs, testMode := tm, returnFullData := rfd }
          csv sl probe save now).1.error =
        some "options.itemIds.split is not a function" ∧
      (performItemAvailabilityCheck
          { itemIds := some (.arr ids), batchSize := bs, testMode := tm, returnFullData := rfd }
          csv sl probe save now).2 = false) ∧
    (∀ (ids : List String) (bs : JsField Nat) (tm rfd : Bool)
        (csv1 csv2 : Except String (List Item)) (sl1 sl2 : Except String (List Store))
        (probe1 probe2 : Store → Item → AvailOutcome) (s1 s2 : Except String Bool)
        (now : String),
      performItemAvailabilityCheck
          { itemIds := some (.arr ids), batchSize := bs, testMode := tm, returnFullData := rfd }
          csv1 sl1 probe1 s1 now =
        performItemAvailabilityCheck
          { itemIds := some (.arr ids), batchSize := bs, testMode := tm, returnFullData := rfd }
          csv2 sl2 probe2 s2 now) ∧
    (∀ (s : String) (tm fu : Option String) (csv : Except String (List Item))
        (sl : Except String (List Store)) (probe : Store → Item → AvailOutcome)
        (save : Except String Bool) (now : String),
      0 < (parseQueryItemIds (some s)).length →
        (itemAvailabilityCheckEndpoint { itemIds := some s, testMode := tm, full := fu }
            csv sl probe save now).success = false) := by
  refine ⟨fun _ _ _ _ _ _ _ _ _ => ⟨rfl, rfl, rfl, rfl⟩,
    fun _ _ _ _ _ _ _ _ _ _ _ _ _ => rfl, ?_⟩
  intro s tm fu csv sl probe save now h
  simp only [itemAvailabilityCheckEndpoint, h, if_pos]
  rfl

/-- Witness for C10: a concrete two-id query string reaching the endpoint. -/
theorem claim10_array_item_ids_witness :
    0 < (parseQueryItemIds (some "A8S21QP2A1,RC72JAN6NK")).length ∧
      (itemAvailabilityCheckEndpoint
          { itemIds := some "A8S21QP2A1,RC72JAN6NK", testMode := none, full := none }
          (.ok [exampleItemA]) (.ok [exampleStore]) exampleProbeOk (.ok true) "t0").success =
        false :=
  ⟨by decide,
    claim10_array_item_ids.2.2 "A8S21QP2A1,RC72JAN6NK" none none
      (.ok [exampleItemA]) (.ok [exampleStore]) exampleProbeOk (.ok true) "t0" (by decide)⟩

end Lighthouse
